import Mathlib

set_option maxHeartbeats 1000000

/-! Verification development for the pinentry discovery module
(`pinentry.go`) and for the saltpack encrypt/decrypt, sender-trust and
device-provisioning core exercised by `go/engine/saltpack_decrypt_test.go`.
The pinentry definitions are shallow embeddings of the Go source; the
engine definitions are modelled from the specification, because the engine
source itself is not part of this snapshot (only its test file is). -/

/-- Result of `os.Stat`: the fields of the file info that `canExec`
inspects. `mode` is the full Go `FileMode` value as an integer; the low
nine bits are the permission bits. -/
structure FileStat where
  isDir : Bool
  mode : Nat
deriving DecidableEq

/-- Errors produced by `canExec` in `pinentry.go`: the `os.Stat` error
itself (abstracted to a code), or one of the two constructed errors. -/
inductive ExecCheckErr where
  | statFailed (code : Nat)
  | isDirectory (prog : String)
  | notExecutable (prog : String)
deriving DecidableEq

/-- Embedding of `canExec` from `pinentry.go`. The filesystem is passed in
as the `stat` function. Returns `none` for success (Go `nil` error).
Go: stat failure is returned as-is; a directory yields an error; a mode
with no `0111` bit set yields an error; otherwise success. -/
def canExec (stat : String → Except Nat FileStat) (s : String) : Option ExecCheckErr :=
  match stat s with
  | .error code => some (.statFailed code)
  | .ok fi =>
    if fi.isDir then some (.isDirectory s)
    else if fi.mode.land 0o111 = 0 then some (.notExecutable s)
    else none

/-- Errors that `Pinentry.Init` can construct or pass through: the error
built in its else-branch around `canExec`, or the error coming back from
`FindPinentry`. -/
inductive PinentryErr where
  | cantExecGiven (prog : String) (inner : ExecCheckErr)
  | noPinentryFound
deriving DecidableEq

/-- The `Pinentry` struct of `pinentry.go`: just the discovered path. -/
structure Pinentry where
  path : String
deriving DecidableEq

/-- Embedding of `NewPinentry` from `pinentry.go`. -/
def NewPinentry : Pinentry := { path := "" }

/-- Embedding of `Pinentry.Init` from `pinentry.go`. The environment value
`G.Env.GetPinentry()` and the `FindPinentry()` outcome are parameters.
Returns the Go return value (an `error`, `none` = `nil`) and the updated
receiver. Go scoping is preserved exactly: `if err := canExec(prog);
err == nil { ... } else { err = ... }` declares an if-statement-scoped
`err`, so the assignment in the else-branch targets that shadowed local
variable and the function-scoped `err` (`var err error`, the value that is
returned) is never written on this path. -/
def Pinentry.Init (pe : Pinentry) (getPinentryEnv : String)
    (stat : String → Except Nat FileStat)
    (findPinentry : Except PinentryErr String) :
    Option PinentryErr × Pinentry :=
  let prog := getPinentryEnv
  let err : Option PinentryErr := none
  if 0 < prog.length then
    match canExec stat prog with
    | none => (err, { pe with path := prog })
    | some inner =>
      let _errShadowed : Option PinentryErr := some (.cantExecGiven prog inner)
      (err, pe)
  else
    match findPinentry with
    | .ok p => (none, { pe with path := p })
    | .error e => (some e, pe)

/-- The `FallbackPasswordEntry` struct of `pinentry.go`: the constructed
`Pinentry` (a pointer, `none` before first `Init`) and the cached first
`Init` result (`initRes *error`, `none` until the first call completes). -/
structure FallbackPasswordEntry where
  pinentry : Option Pinentry
  initRes : Option (Option PinentryErr)

/-- Embedding of `NewFallbackPasswordEntry` from `pinentry.go`. -/
def NewFallbackPasswordEntry : FallbackPasswordEntry :=
  { pinentry := none, initRes := none }

/-- Embedding of `FallbackPasswordEntry.Init` from `pinentry.go`. The
final `Bool` records whether this call performed pinentry construction and
discovery (read the environment and ran `Pinentry.Init`): on the cached
path the receiver is returned untouched and nothing is re-run. -/
def FallbackPasswordEntry.Init (pe : FallbackPasswordEntry)
    (getPinentryEnv : String) (stat : String → Except Nat FileStat)
    (findPinentry : Except PinentryErr String) :
    Option PinentryErr × FallbackPasswordEntry × Bool :=
  match pe.initRes with
  | some r => (r, pe, false)
  | none =>
    let p := Pinentry.Init NewPinentry getPinentryEnv stat findPinentry
    (p.1, { pinentry := some p.2, initRes := some p.1 }, true)

/-- C9: if the configured pinentry program path is non-empty but fails the
executability check (the stat result is a directory or carries no execute
bit), `Pinentry.Init` returns `nil` rather than the constructed error,
because that error is assigned to a shadowed local variable; starting from
a fresh `Pinentry` the `path` field is left empty. -/
theorem pinentry_init_swallows_exec_error (prog : String) (fi : FileStat)
    (findPinentry : Except PinentryErr String)
    (hlen : 0 < prog.length)
    (hbad : fi.isDir = true ∨ fi.mode.land 0o111 = 0) :
    Pinentry.Init NewPinentry prog (fun _ => .ok fi) findPinentry
      = (none, { path := "" }) := by
  have hsome : ∃ e, canExec (fun _ => .ok fi) prog = some e := by
    rcases hbad with hdir | hmode
    · exact ⟨.isDirectory prog, by simp [canExec, hdir]⟩
    · rcases h : fi.isDir with _ | _
      · exact ⟨.notExecutable prog, by simp [canExec, h, hmode]⟩
      · exact ⟨.isDirectory prog, by simp [canExec, h]⟩
  rcases hsome with ⟨e, he⟩
  simp [Pinentry.Init, NewPinentry, hlen, he]

/-- Witness for C9 at a concrete input: a three-character configured path
whose stat result is a directory. -/
theorem pinentry_init_swallows_exec_error_witness :
    0 < ("pin" : String).length
    ∧ Pinentry.Init NewPinentry "pin" (fun _ => .ok ⟨true, 0o755⟩)
        (.error .noPinentryFound) = (none, { path := "" }) :=
  ⟨by decide,
   pinentry_init_swallows_exec_error "pin" ⟨true, 0o755⟩
     (.error .noPinentryFound) (by decide) (Or.inl rfl)⟩

/-- C10: `FallbackPasswordEntry.Init` is idempotent after its first
invocation: once the first call has run, any later call — even under a
different environment and filesystem — returns the first call's cached
error result, leaves the receiver unchanged, and does not re-run pinentry
discovery or re-read the environment. -/
theorem fallback_init_idempotent (g g2 : String)
    (stat stat2 : String → Except Nat FileStat)
    (findPinentry findPinentry2 : Except PinentryErr String)
    (pe : FallbackPasswordEntry) (hfresh : pe.initRes = none) :
    FallbackPasswordEntry.Init
        (FallbackPasswordEntry.Init pe g stat findPinentry).2.1
        g2 stat2 findPinentry2
      = ((FallbackPasswordEntry.Init pe g stat findPinentry).1,
         (FallbackPasswordEntry.Init pe g stat findPinentry).2.1, false) := by
  simp [FallbackPasswordEntry.Init, hfresh]

/-- Witness for C10 at a concrete input: a fresh entry initialised under
one environment, re-initialised under a different one. -/
theorem fallback_init_idempotent_witness :
    NewFallbackPasswordEntry.initRes = none
    ∧ FallbackPasswordEntry.Init
        (FallbackPasswordEntry.Init NewFallbackPasswordEntry "" (fun _ => .error 2)
          (.error .noPinentryFound)).2.1
        "pin" (fun _ => .ok ⟨false, 0o755⟩) (.ok "pin")
      = ((FallbackPasswordEntry.Init NewFallbackPasswordEntry "" (fun _ => .error 2)
          (.error .noPinentryFound)).1,
         (FallbackPasswordEntry.Init NewFallbackPasswordEntry "" (fun _ => .error 2)
          (.error .noPinentryFound)).2.1, false) :=
  ⟨rfl,
   fallback_init_idempotent "" "pin" (fun _ => .error 2) (fun _ => .ok ⟨false, 0o755⟩)
     (.error .noPinentryFound) (.ok "pin") NewFallbackPasswordEntry rfl⟩

namespace Saltpack

/-- Modelled from the spec: device types (§3, §9: a closed tagged variant
desktop/mobile/backup), because the engine source is not in this snapshot. -/
inductive DeviceType where
  | desktop
  | mobile
  | backup
deriving DecidableEq

/-- Modelled from the spec: a Device (§3) — id, type and encryption key.
Keys are abstracted to naturals; a device private key is identified with
its public encryption key in the symbolic model. -/
structure Device where
  id : Nat
  type : DeviceType
  encKey : Nat
deriving DecidableEq

/-- Modelled from the spec: the envelope format tag (§6) — the native
saltpack tag and foreign tags such as a PGP message or a legacy signed
message block. -/
inductive MsgFormat where
  | saltpack
  | pgp
  | legacySigned
deriving DecidableEq

/-- Modelled from the spec: the sender field of an envelope (§3) — a real
sender key or the anonymous placeholder. -/
inductive SenderField where
  | real (key : Nat)
  | anonymous
deriving DecidableEq

/-- Modelled from the spec: a recipient slot (§3, §6) — a recipient key
identifier plus the per-message content key encrypted to that device key.
In the symbolic model the sealed content key is released only on an exact
key match. -/
structure Slot where
  recipKey : Nat
  sealedContentKey : Nat
deriving DecidableEq

/-- Modelled from the spec: the envelope (§3, §6) — format tag, sender
field, ordered recipient slots, and the ciphertext payload: chunks sealed
under the per-message content key. -/
structure Envelope where
  format : MsgFormat
  sender : SenderField
  slots : List Slot
  payloadKey : Nat
  chunks : List (List Nat)
deriving DecidableEq

/-- Modelled from the spec: MessageInfo (§6) — the diagnostic device list
returned to callers. -/
structure MessageInfo where
  devices : List Device
deriving DecidableEq

/-- Modelled from the spec: the SenderClassification enum (§3). -/
inductive SenderClassification where
  | anonymousSender
  | notTracked
  | trackingOK
  | trackingBroke
deriving DecidableEq

/-- Modelled from the spec: one identity proof of a TrackingStatement (§3)
with its cached last-verified state. -/
structure IdentityProof where
  id : Nat
  cachedOk : Bool
deriving DecidableEq

/-- Modelled from the spec: a TrackingStatement (§3) — the set of identity
proofs with their last-verified states. -/
structure TrackingStatement where
  proofs : List IdentityProof
deriving DecidableEq

/-- Modelled from the spec: the recipient's local trust state (§4.3) — the
identity/key index resolving a sender key to an identity, and the held
TrackingStatements per identity. -/
structure TrustState where
  resolveIdentity : Nat → Option Nat
  statements : Nat → Option TrackingStatement

/-- Modelled from the spec: the error taxonomy seen by decrypt callers
(§7) — FormatMismatch with wanted/received/operation, NoDecryptionKey with
its diagnostic device list, a payload authentication failure, and opaque
caller-supplied policy errors (identified by a code so that value identity
is expressible). -/
inductive DecryptError where
  | formatMismatch (wanted received : MsgFormat) (operation : String)
  | noDecryptionKey (info : MessageInfo)
  | badCiphertext
  | callerError (code : Nat)
deriving DecidableEq

/-- Modelled from the spec: RecipientKeyResolver.Resolve (§4.2) — the
resolved recipient device keys, unioning in the sender's own active device
keys unless self-encryption is suppressed. -/
def resolveRecipients (recipientDevKeys senderDevKeys : List Nat)
    (noSelfEncrypt : Bool) : List Nat :=
  recipientDevKeys ++ (if noSelfEncrypt then [] else senderDevKeys)

/-- Modelled from the spec: MessageCodec.Encrypt plus the EncryptionEngine
(§4.1) — one recipient slot per resolved device key, each sealing the
per-message content key; the sender field is the real sender key, or the
anonymous placeholder when `hideSelf` is set; the payload chunks are
sealed under the content key. -/
def encrypt (contentKey senderKey : Nat) (senderDevKeys recipientDevKeys : List Nat)
    (noSelfEncrypt hideSelf : Bool) (plain : List Nat) : Envelope :=
  let keys := resolveRecipients recipientDevKeys senderDevKeys noSelfEncrypt
  { format := .saltpack
  , sender := if hideSelf then .anonymous else .real senderKey
  , slots := keys.map (fun k => { recipKey := k, sealedContentKey := contentKey })
  , payloadKey := contentKey
  , chunks := [plain] }

/-- Modelled from the spec: cached proof evaluation (§4.3 rule 4, no live
check) — all required proofs hold in the verification cache. -/
def verifyCached (ts : TrackingStatement) : Bool :=
  ts.proofs.all (fun p => p.cachedOk)

/-- Modelled from the spec: live proof evaluation (§4.3 rule 4 with
`forceRemoteCheck`) — every required proof is re-verified now against the
network collaborator `live`, ignoring the cache. -/
def verifyLive (live : Nat → Bool) (ts : TrackingStatement) : Bool :=
  ts.proofs.all (fun p => live p.id)

/-- Modelled from the spec: the cache update performed by a live check
(§4.3) — each proof's cached state is replaced by its live result. -/
def updateCache (live : Nat → Bool) (ts : TrackingStatement) : TrackingStatement :=
  { proofs := ts.proofs.map (fun p => { id := p.id, cachedOk := live p.id }) }

/-- Modelled from the spec: SenderTrustResolver.Classify (§4.3), rules in
priority order: anonymous placeholder → ANONYMOUS regardless of trust
state; unresolvable sender key → NOT_TRACKED; no TrackingStatement held →
NOT_TRACKED; otherwise evaluate the proofs, live when `force` is set
(updating the verification cache, the only mutation) and from the cache
otherwise. Returns the classification and the possibly-updated trust
state. -/
def classify (trust : TrustState) (live : Nat → Bool) (force : Bool)
    (sender : SenderField) : SenderClassification × TrustState :=
  match sender with
  | .anonymous => (.anonymousSender, trust)
  | .real k =>
    match trust.resolveIdentity k with
    | none => (.notTracked, trust)
    | some ident =>
      match trust.statements ident with
      | none => (.notTracked, trust)
      | some ts =>
        if force then
          ((if verifyLive live ts then .trackingOK else .trackingBroke),
           { trust with
              statements := fun i =>
                if i = ident then some (updateCache live ts) else trust.statements i })
        else
          ((if verifyCached ts then .trackingOK else .trackingBroke), trust)

/-- Modelled from the spec: one candidate private key tried against each
recipient slot in order (§4.1). Returns the opened content key (if any
slot matches) and the number of slot trials performed. -/
def openWithKey (k : Nat) (slots : List Slot) : Option Nat × Nat :=
  match slots with
  | [] => (none, 0)
  | s :: rest =>
    if s.recipKey = k then (some s.sealedContentKey, 1)
    else
      let r := openWithKey k rest
      (r.1, r.2 + 1)

/-- Modelled from the spec: the recipient search of Decrypt (§4.1) — each
candidate private key is attempted against each recipient slot in order;
the first key-and-slot pair that opens the content key wins. Returns the
opened content key and the total number of slot trials. -/
def trySlots (privKeys : List Nat) (slots : List Slot) : Option Nat × Nat :=
  match privKeys with
  | [] => (none, 0)
  | k :: rest =>
    match openWithKey k slots with
    | (some ck, n) => (some ck, n)
    | (none, n) =>
      let r := trySlots rest slots
      (r.1, n + r.2)

/-- Modelled from the spec: the diagnostic device list of MessageInfo
(§4.1) — every registry device whose public key the envelope header
addressed, excluding any device known to have decrypted successfully. -/
def addressedDevices (registry : List Device) (slots : List Slot)
    (opened : List Nat) : List Device :=
  registry.filter
    (fun d => slots.any (fun s => s.recipKey == d.encKey) && !(opened.contains d.encKey))

/-- The full observable outcome of one decrypt run: the result, the
possibly-updated trust state, and a trace — how many slot trials were
performed, how often the policy callback was invoked, and the sender
classification it was shown. -/
structure DecOut where
  result : Except DecryptError (List Nat)
  trust : TrustState
  keyTrials : Nat
  promptCalls : Nat
  senderType : Option SenderClassification

/-- Modelled from the spec: the DecryptionEngine state machine (§4.4) over
MessageCodec.Decrypt (§4.1), because the engine source is not in this
snapshot. The format tag is validated first — on mismatch the run ends
with a FormatMismatch error before any key material is touched (zero slot
trials). Then the recipient search runs; with no match the run ends with
NoDecryptionKey carrying the diagnostic device list, without invoking the
policy callback. On a match the sender is classified, the caller-supplied
policy callback is invoked exactly once with the classification, and a
policy error is propagated unchanged; otherwise the payload is opened with
the content key and the plaintext chunks are concatenated. -/
def decrypt (registry : List Device) (trust : TrustState) (live : Nat → Bool)
    (force : Bool) (policy : SenderClassification → Option DecryptError)
    (privKeys : List Nat) (env : Envelope) : DecOut :=
  if env.format ≠ .saltpack then
    { result := .error (.formatMismatch .saltpack env.format "decrypt")
    , trust := trust, keyTrials := 0, promptCalls := 0, senderType := none }
  else
    match trySlots privKeys env.slots with
    | (none, n) =>
      { result := .error (.noDecryptionKey { devices := addressedDevices registry env.slots [] })
      , trust := trust, keyTrials := n, promptCalls := 0, senderType := none }
    | (some contentKey, n) =>
      let c := classify trust live force env.sender
      { result :=
          match policy c.1 with
          | some e => .error e
          | none =>
            if env.payloadKey = contentKey then .ok env.chunks.flatten
            else .error .badCiphertext
      , trust := c.2, keyTrials := n, promptCalls := 1, senderType := some c.1 }

end Saltpack

namespace Saltpack

/-- Helper: classification without a forced re-check never mutates the
trust state. -/
theorem classify_noforce_snd (trust : TrustState) (live : Nat → Bool)
    (sender : SenderField) : (classify trust live false sender).2 = trust := by
  cases sender with
  | anonymous => rfl
  | real k =>
    cases h : trust.resolveIdentity k with
    | none => simp [classify, h]
    | some ident =>
      cases h2 : trust.statements ident with
      | none => simp [classify, h, h2]
      | some ts => simp [classify, h, h2]

/-- Helper: a decrypt run without a forced re-check returns the trust
state unchanged. -/
theorem decrypt_noforce_trust (registry : List Device) (trust : TrustState)
    (live : Nat → Bool) (policy : SenderClassification → Option DecryptError)
    (privKeys : List Nat) (env : Envelope) :
    (decrypt registry trust live false policy privKeys env).trust = trust := by
  unfold decrypt
  split
  · rfl
  · split
    · rfl
    · exact classify_noforce_snd trust live env.sender

/-- Helper: a statement with one live-failing member proof fails the live
verification. -/
theorem verifyLive_false_of_broken (live : Nat → Bool) (ts : TrackingStatement)
    (hbroke : ∃ p ∈ ts.proofs, live p.id = false) :
    verifyLive live ts = false := by
  rcases hbroke with ⟨p, hp, hpf⟩
  cases hv : verifyLive live ts with
  | false => rfl
  | true =>
    have hall := List.all_eq_true.mp hv p hp
    rw [hpf] at hall
    exact absurd hall (by simp)

end Saltpack

namespace Saltpack

/-- C1: encrypting any byte sequence M without suppressing self-encryption
(and with no explicit recipients beyond the sender) yields an envelope
that at least one of the sender's own current devices can decrypt, and
decrypting it there reproduces M exactly. -/
theorem encrypt_decrypt_roundtrip_self (plain : List Nat)
    (contentKey senderKey : Nat) (senderDevKeys : List Nat)
    (registry : List Device) (trust : TrustState) (live : Nat → Bool)
    (force : Bool) (hdev : senderDevKeys ≠ []) :
    ∃ k ∈ senderDevKeys,
      (decrypt registry trust live force (fun _ => none) [k]
        (encrypt contentKey senderKey senderDevKeys [] false false plain)).result
        = .ok plain := by
  rcases senderDevKeys with _ | ⟨k, rest⟩
  · exact absurd rfl hdev
  · refine ⟨k, List.mem_cons_self k rest, ?_⟩
    simp [encrypt, resolveRecipients, decrypt, trySlots, openWithKey]

/-- Witness for C1: a concrete two-device sender encrypting a concrete
message to nobody but itself. -/
theorem encrypt_decrypt_roundtrip_self_witness :
    ([3, 4] : List Nat) ≠ []
    ∧ ∃ k ∈ ([3, 4] : List Nat),
        (decrypt [] ⟨fun _ => none, fun _ => none⟩ (fun _ => true) false
          (fun _ => none) [k]
          (encrypt 5 7 [3, 4] [] false false [10, 20, 30])).result
          = .ok [10, 20, 30] :=
  ⟨by decide,
   encrypt_decrypt_roundtrip_self [10, 20, 30] 5 7 [3, 4] []
     ⟨fun _ => none, fun _ => none⟩ (fun _ => true) false (by decide)⟩

/-- C2: decrypting any well-formed but foreign-format input fails with a
FormatMismatch error whose wanted field is the native tag, whose received
field is the detected foreign tag and whose operation field is "decrypt",
before any key material is used (zero key trials, zero policy prompts),
whatever candidate keys are held. -/
theorem decrypt_foreign_format_rejected (registry : List Device)
    (trust : TrustState) (live : Nat → Bool) (force : Bool)
    (policy : SenderClassification → Option DecryptError)
    (privKeys : List Nat) (env : Envelope)
    (hfmt : env.format ≠ .saltpack) :
    (decrypt registry trust live force policy privKeys env).result
      = .error (.formatMismatch .saltpack env.format "decrypt")
    ∧ (decrypt registry trust live force policy privKeys env).keyTrials = 0
    ∧ (decrypt registry trust live force policy privKeys env).promptCalls = 0 := by
  refine ⟨?_, ?_, ?_⟩ <;> simp [decrypt, hfmt]

/-- Witness for C2: a concrete PGP-format envelope rejected with the
structured FormatMismatch error. -/
theorem decrypt_foreign_format_rejected_witness :
    (Envelope.mk .pgp (.real 1) [⟨5, 9⟩] 9 [[1]]).format ≠ .saltpack
    ∧ ((decrypt [] ⟨fun _ => none, fun _ => none⟩ (fun _ => true) false
          (fun _ => none) [5] (Envelope.mk .pgp (.real 1) [⟨5, 9⟩] 9 [[1]])).result
        = .error (.formatMismatch .saltpack
            (Envelope.mk .pgp (.real 1) [⟨5, 9⟩] 9 [[1]]).format "decrypt")
      ∧ (decrypt [] ⟨fun _ => none, fun _ => none⟩ (fun _ => true) false
          (fun _ => none) [5] (Envelope.mk .pgp (.real 1) [⟨5, 9⟩] 9 [[1]])).keyTrials = 0
      ∧ (decrypt [] ⟨fun _ => none, fun _ => none⟩ (fun _ => true) false
          (fun _ => none) [5] (Envelope.mk .pgp (.real 1) [⟨5, 9⟩] 9 [[1]])).promptCalls = 0) :=
  ⟨by decide,
   decrypt_foreign_format_rejected [] ⟨fun _ => none, fun _ => none⟩
     (fun _ => true) false (fun _ => none) [5]
     (Envelope.mk .pgp (.real 1) [⟨5, 9⟩] 9 [[1]]) (by decide)⟩

/-- C3: whatever error value E the caller-supplied trust-prompt policy
callback returns after sender classification, decrypt returns exactly that
value E, and the callback is invoked exactly once — no wrapping, no
internal retry. -/
theorem decrypt_policy_error_passthrough (registry : List Device)
    (trust : TrustState) (live : Nat → Bool) (force : Bool)
    (privKeys : List Nat) (env : Envelope) (e : DecryptError) (ck n : Nat)
    (hfmt : env.format = .saltpack)
    (hfound : trySlots privKeys env.slots = (some ck, n)) :
    (decrypt registry trust live force (fun _ => some e) privKeys env).result
      = .error e
    ∧ (decrypt registry trust live force (fun _ => some e) privKeys env).promptCalls
      = 1 := by
  constructor <;> simp [decrypt, hfmt, hfound]

/-- Witness for C3: a concrete rejecting callback whose distinguished
error value (code 42) comes back from decrypt untouched. -/
theorem decrypt_policy_error_passthrough_witness :
    (Envelope.mk .saltpack (.real 1) [⟨5, 9⟩] 9 [[1]]).format = .saltpack
    ∧ trySlots [5] (Envelope.mk .saltpack (.real 1) [⟨5, 9⟩] 9 [[1]]).slots = (some 9, 1)
    ∧ ((decrypt [] ⟨fun _ => none, fun _ => none⟩ (fun _ => true) false
          (fun _ => some (.callerError 42)) [5]
          (Envelope.mk .saltpack (.real 1) [⟨5, 9⟩] 9 [[1]])).result
        = .error (.callerError 42)
      ∧ (decrypt [] ⟨fun _ => none, fun _ => none⟩ (fun _ => true) false
          (fun _ => some (.callerError 42)) [5]
          (Envelope.mk .saltpack (.real 1) [⟨5, 9⟩] 9 [[1]])).promptCalls = 1) :=
  ⟨rfl, rfl,
   decrypt_policy_error_passthrough [] ⟨fun _ => none, fun _ => none⟩
     (fun _ => true) false [5] (Envelope.mk .saltpack (.real 1) [⟨5, 9⟩] 9 [[1]])
     (.callerError 42) 9 1 rfl rfl⟩

end Saltpack

namespace Saltpack

/-- C4: with a fixed trust state and no forced re-check, repeated decrypts
of the same message are identical (classification stable, trust state
returned unchanged), the sender of an all-cached-OK statement is
classified TRACKING_OK; and once a required proof fails live, a decrypt of
the same message with forceRemoteCheck classifies the sender
TRACKING_BROKE. -/
theorem decrypt_classification_stable_and_transition (registry : List Device)
    (trust : TrustState) (live : Nat → Bool)
    (policy : SenderClassification → Option DecryptError)
    (privKeys : List Nat) (env : Envelope) (k ident : Nat)
    (ts : TrackingStatement) (ck n : Nat)
    (hfmt : env.format = .saltpack)
    (hsender : env.sender = .real k)
    (hfound : trySlots privKeys env.slots = (some ck, n))
    (hid : trust.resolveIdentity k = some ident)
    (hts : trust.statements ident = some ts)
    (hcache : verifyCached ts = true)
    (hbroke : ∃ p ∈ ts.proofs, live p.id = false) :
    decrypt registry ((decrypt registry trust live false policy privKeys env).trust)
        live false policy privKeys env
      = decrypt registry trust live false policy privKeys env
    ∧ (decrypt registry trust live false policy privKeys env).senderType
      = some .trackingOK
    ∧ (decrypt registry trust live true policy privKeys env).senderType
      = some .trackingBroke := by
  have hlive := verifyLive_false_of_broken live ts hbroke
  refine ⟨?_, ?_, ?_⟩
  · rw [decrypt_noforce_trust]
  · simp [decrypt, hfmt, hfound, classify, hsender, hid, hts, hcache]
  · simp [decrypt, hfmt, hfound, classify, hsender, hid, hts, hlive]

/-- Witness for C4: one tracked sender with a single cached-OK proof that
fails its live re-verification. -/
theorem decrypt_classification_stable_and_transition_witness :
    (Envelope.mk .saltpack (.real 7) [⟨5, 9⟩] 9 [[1]]).format = .saltpack
    ∧ (Envelope.mk .saltpack (.real 7) [⟨5, 9⟩] 9 [[1]]).sender = .real 7
    ∧ verifyCached ⟨[⟨0, true⟩]⟩ = true
    ∧ (∃ p ∈ (⟨[⟨0, true⟩]⟩ : TrackingStatement).proofs, (fun _ => false : Nat → Bool) p.id = false)
    ∧ ((decrypt [] ⟨fun x => if x = 7 then some 1 else none,
          fun i => if i = 1 then some ⟨[⟨0, true⟩]⟩ else none⟩
          (fun _ => false) false (fun _ => none) [5]
          (Envelope.mk .saltpack (.real 7) [⟨5, 9⟩] 9 [[1]])).senderType
        = some .trackingOK
      ∧ (decrypt [] ⟨fun x => if x = 7 then some 1 else none,
          fun i => if i = 1 then some ⟨[⟨0, true⟩]⟩ else none⟩
          (fun _ => false) true (fun _ => none) [5]
          (Envelope.mk .saltpack (.real 7) [⟨5, 9⟩] 9 [[1]])).senderType
        = some .trackingBroke) :=
  ⟨rfl, rfl, rfl, ⟨⟨0, true⟩, by simp, rfl⟩,
   (decrypt_classification_stable_and_transition []
     ⟨fun x => if x = 7 then some 1 else none,
      fun i => if i = 1 then some ⟨[⟨0, true⟩]⟩ else none⟩
     (fun _ => false) (fun _ => none) [5]
     (Envelope.mk .saltpack (.real 7) [⟨5, 9⟩] 9 [[1]]) 7 1 ⟨[⟨0, true⟩]⟩ 9 1
     rfl rfl rfl rfl rfl rfl ⟨⟨0, true⟩, by simp, rfl⟩).2⟩

/-- C5: any message encrypted with the hidden-sender option is classified
ANONYMOUS on decrypt, even when the recipient's trust state would
otherwise classify that sender TRACKING_OK — the anonymous placeholder
takes priority over all trust rules. -/
theorem decrypt_hidden_sender_anonymous (registry : List Device)
    (trust : TrustState) (live : Nat → Bool) (force : Bool)
    (policy : SenderClassification → Option DecryptError)
    (plain : List Nat) (contentKey senderKey : Nat)
    (senderDevKeys recipientDevKeys : List Nat) (noSelfEncrypt : Bool)
    (privKeys : List Nat) (ck n : Nat)
    (_hok : (classify trust live force (.real senderKey)).1 = .trackingOK)
    (hfound : trySlots privKeys
        (encrypt contentKey senderKey senderDevKeys recipientDevKeys
          noSelfEncrypt true plain).slots = (some ck, n)) :
    (decrypt registry trust live force policy privKeys
        (encrypt contentKey senderKey senderDevKeys recipientDevKeys
          noSelfEncrypt true plain)).senderType
      = some .anonymousSender := by
  have hfmt : (encrypt contentKey senderKey senderDevKeys recipientDevKeys
      noSelfEncrypt true plain).format = .saltpack := rfl
  have hsender : (encrypt contentKey senderKey senderDevKeys recipientDevKeys
      noSelfEncrypt true plain).sender = .anonymous := rfl
  simp [decrypt, hfmt, hsender, hfound, classify]

/-- Witness for C5: a hidden-sender encryption addressed to one device of
a recipient whose trust state classifies the real sender TRACKING_OK. -/
theorem decrypt_hidden_sender_anonymous_witness :
    (classify ⟨fun x => if x = 7 then some 1 else none,
        fun i => if i = 1 then some ⟨[⟨0, true⟩]⟩ else none⟩
        (fun _ => true) false (.real 7)).1 = .trackingOK
    ∧ trySlots [5] (encrypt 9 7 [] [5] true true [10, 20]).slots = (some 9, 1)
    ∧ (decrypt [] ⟨fun x => if x = 7 then some 1 else none,
        fun i => if i = 1 then some ⟨[⟨0, true⟩]⟩ else none⟩
        (fun _ => true) false (fun _ => none) [5]
        (encrypt 9 7 [] [5] true true [10, 20])).senderType
      = some .anonymousSender :=
  ⟨rfl, rfl,
   decrypt_hidden_sender_anonymous []
     ⟨fun x => if x = 7 then some 1 else none,
      fun i => if i = 1 then some ⟨[⟨0, true⟩]⟩ else none⟩
     (fun _ => true) false (fun _ => none) [10, 20] 9 7 [] [5] true [5] 9 1
     rfl rfl⟩

/-- C6: when no held private key is addressed by any recipient slot,
decrypt fails with NoDecryptionKey without ever invoking the policy
callback, and the diagnostic device list is exactly the set of registry
devices whose public keys the envelope addressed — each entry coming
straight from the registry with its device type and encryption key. -/
theorem decrypt_no_decryption_key_diagnostics (registry : List Device)
    (trust : TrustState) (live : Nat → Bool) (force : Bool)
    (policy : SenderClassification → Option DecryptError)
    (privKeys : List Nat) (env : Envelope) (n : Nat)
    (hfmt : env.format = .saltpack)
    (hnone : trySlots privKeys env.slots = (none, n)) :
    (decrypt registry trust live force policy privKeys env).result
      = .error (.noDecryptionKey { devices := addressedDevices registry env.slots [] })
    ∧ (decrypt registry trust live force policy privKeys env).promptCalls = 0
    ∧ ∀ d, d ∈ addressedDevices registry env.slots []
        ↔ (d ∈ registry ∧ env.slots.any (fun s => s.recipKey == d.encKey) = true) := by
  refine ⟨?_, ?_, ?_⟩
  · simp [decrypt, hfmt, hnone]
  · simp [decrypt, hfmt, hnone]
  · intro d
    simp [addressedDevices, List.mem_filter]

/-- Witness for C6: a message addressed to one backup and one desktop
device, decrypted on a device whose key is in neither slot; the
diagnostics name exactly those two devices. -/
theorem decrypt_no_decryption_key_diagnostics_witness :
    (Envelope.mk .saltpack (.real 7) [⟨100, 9⟩, ⟨101, 9⟩] 9 [[1]]).format = .saltpack
    ∧ trySlots [102] (Envelope.mk .saltpack (.real 7) [⟨100, 9⟩, ⟨101, 9⟩] 9 [[1]]).slots
      = (none, 2)
    ∧ addressedDevices [⟨1, .backup, 100⟩, ⟨2, .desktop, 101⟩, ⟨3, .desktop, 102⟩]
        (Envelope.mk .saltpack (.real 7) [⟨100, 9⟩, ⟨101, 9⟩] 9 [[1]]).slots []
      = [⟨1, .backup, 100⟩, ⟨2, .desktop, 101⟩]
    ∧ ((decrypt [⟨1, .backup, 100⟩, ⟨2, .desktop, 101⟩, ⟨3, .desktop, 102⟩]
          ⟨fun _ => none, fun _ => none⟩ (fun _ => true) false (fun _ => none) [102]
          (Envelope.mk .saltpack (.real 7) [⟨100, 9⟩, ⟨101, 9⟩] 9 [[1]])).result
        = .error (.noDecryptionKey
            { devices := addressedDevices
                [⟨1, .backup, 100⟩, ⟨2, .desktop, 101⟩, ⟨3, .desktop, 102⟩]
                (Envelope.mk .saltpack (.real 7) [⟨100, 9⟩, ⟨101, 9⟩] 9 [[1]]).slots [] })
      ∧ (decrypt [⟨1, .backup, 100⟩, ⟨2, .desktop, 101⟩, ⟨3, .desktop, 102⟩]
          ⟨fun _ => none, fun _ => none⟩ (fun _ => true) false (fun _ => none) [102]
          (Envelope.mk .saltpack (.real 7) [⟨100, 9⟩, ⟨101, 9⟩] 9 [[1]])).promptCalls = 0) :=
  ⟨rfl, rfl, by decide,
   ⟨(decrypt_no_decryption_key_diagnostics
      [⟨1, .backup, 100⟩, ⟨2, .desktop, 101⟩, ⟨3, .desktop, 102⟩]
      ⟨fun _ => none, fun _ => none⟩ (fun _ => true) false (fun _ => none) [102]
      (Envelope.mk .saltpack (.real 7) [⟨100, 9⟩, ⟨101, 9⟩] 9 [[1]]) 2 rfl rfl).1,
    (decrypt_no_decryption_key_diagnostics
      [⟨1, .backup, 100⟩, ⟨2, .desktop, 101⟩, ⟨3, .desktop, 102⟩]
      ⟨fun _ => none, fun _ => none⟩ (fun _ => true) false (fun _ => none) [102]
      (Envelope.mk .saltpack (.real 7) [⟨100, 9⟩, ⟨101, 9⟩] 9 [[1]]) 2 rfl rfl).2.1⟩⟩

/-- C8: when the sender field is a real key whose resolved identity has no
TrackingStatement held by the recipient, decrypt classifies the sender
NOT_TRACKED, and with an accepting policy callback the plaintext is still
produced. -/
theorem decrypt_not_tracked_succeeds (registry : List Device)
    (trust : TrustState) (live : Nat → Bool) (force : Bool)
    (privKeys : List Nat) (env : Envelope) (k ident ck n : Nat)
    (hfmt : env.format = .saltpack)
    (hsender : env.sender = .real k)
    (hfound : trySlots privKeys env.slots = (some ck, n))
    (hres : trust.resolveIdentity k = some ident)
    (hts : trust.statements ident = none)
    (hkey : env.payloadKey = ck) :
    (decrypt registry trust live force (fun _ => none) privKeys env).senderType
      = some .notTracked
    ∧ (decrypt registry trust live force (fun _ => none) privKeys env).result
      = .ok env.chunks.flatten := by
  constructor <;> simp [decrypt, hfmt, hfound, classify, hsender, hres, hts, hkey]

/-- Witness for C8: an untracked but resolvable sender; decrypt reports
NOT_TRACKED and yields the plaintext. -/
theorem decrypt_not_tracked_succeeds_witness :
    (Envelope.mk .saltpack (.real 7) [⟨5, 9⟩] 9 [[8, 9]]).format = .saltpack
    ∧ (Envelope.mk .saltpack (.real 7) [⟨5, 9⟩] 9 [[8, 9]]).sender = .real 7
    ∧ ((decrypt [] ⟨fun x => if x = 7 then some 1 else none, fun _ => none⟩
          (fun _ => true) false (fun _ => none) [5]
          (Envelope.mk .saltpack (.real 7) [⟨5, 9⟩] 9 [[8, 9]])).senderType
        = some .notTracked
      ∧ (decrypt [] ⟨fun x => if x = 7 then some 1 else none, fun _ => none⟩
          (fun _ => true) false (fun _ => none) [5]
          (Envelope.mk .saltpack (.real 7) [⟨5, 9⟩] 9 [[8, 9]])).result
        = .ok (Envelope.mk .saltpack (.real 7) [⟨5, 9⟩] 9 [[8, 9]]).chunks.flatten) :=
  ⟨rfl, rfl,
   decrypt_not_tracked_succeeds []
     ⟨fun x => if x = 7 then some 1 else none, fun _ => none⟩
     (fun _ => true) false [5] (Envelope.mk .saltpack (.real 7) [⟨5, 9⟩] 9 [[8, 9]])
     7 1 9 1 rfl rfl rfl rfl rfl rfl⟩

end Saltpack

namespace Saltpack

/-- Modelled from the spec: the provisioner task's phase in the
ProvisioningProtocol (§4.5) — listening without the secret yet, holding
the supplied secret, or finished after sending attested activation
material. The provisioner source is not in this snapshot. -/
inductive ProvisionerPhase where
  | waiting
  | haveSecret
  | finished
deriving DecidableEq

/-- Modelled from the spec: the provisionee task's phase (§4.5) — before
submitting its proposed device key, after submitting it, or finished after
installing the activation material. -/
inductive ProvisioneePhase where
  | start
  | sentKey
  | finished
deriving DecidableEq

/-- Modelled from the spec: the joint state of one provisioning session
(§4.5, §5) — the two independent task phases, the rendezvous-channel
flags (secret handed to the provisioner, provisionee key submitted,
activation material in transit), and how many times the new device has
been inserted into the DeviceRegistry. -/
structure ProvisionState where
  pner : ProvisionerPhase
  pnee : ProvisioneePhase
  secretSupplied : Bool
  keySubmitted : Bool
  activationSent : Bool
  registered : Nat
deriving DecidableEq

/-- The initial session state: the provisioner is already running and
listening before its secret is known; nothing is registered. -/
def provisionInit : ProvisionState :=
  { pner := .waiting, pnee := .start
  , secretSupplied := false, keySubmitted := false, activationSent := false
  , registered := 0 }

/-- Modelled from the spec: the interleaved small-step semantics of the
two concurrent provisioning tasks (§4.5, §5), with `sX` the secret
supplied to the provisioner and `sY` the provisionee's secret.
`supplySecret` hands the out-of-band secret to the already-waiting
provisioner (a non-blocking handoff into its receive point);
`submitKey` is the provisionee presenting its proposed device key over the
rendezvous; `attest` is the provisioner matching the secrets and sending
back attested activation material; `install` is the provisionee installing
itself as a new active device in the DeviceRegistry. The two secret-
carrying events `supplySecret` and `submitKey` are unordered with respect
to each other. -/
inductive ProvisionStep (sX sY : Nat) : ProvisionState → ProvisionState → Prop where
  | supplySecret : ∀ s, s.pner = .waiting →
      ProvisionStep sX sY s { s with pner := .haveSecret, secretSupplied := true }
  | submitKey : ∀ s, s.pnee = .start →
      ProvisionStep sX sY s { s with pnee := .sentKey, keySubmitted := true }
  | attest : ∀ s, s.pner = .haveSecret → s.keySubmitted = true → sX = sY →
      ProvisionStep sX sY s { s with pner := .finished, activationSent := true }
  | install : ∀ s, s.pnee = .sentKey → s.activationSent = true →
      ProvisionStep sX sY s { s with pnee := .finished, registered := s.registered + 1 }

/-- The states reachable from the initial session state. -/
inductive ProvisionReach (sX sY : Nat) : ProvisionState → Prop where
  | init : ProvisionReach sX sY provisionInit
  | step : ∀ s t, ProvisionReach sX sY s → ProvisionStep sX sY s t →
      ProvisionReach sX sY t

/-- A session is complete when both concurrent tasks have terminated. -/
def ProvisionFinal (s : ProvisionState) : Prop :=
  s.pner = .finished ∧ s.pnee = .finished

/-- Invariant of reachable provisioning states: the channel flags track
the task phases and the registry count is 0 before installation and
exactly 1 after. -/
def ProvisionInv (s : ProvisionState) : Prop :=
  (s.secretSupplied = true ↔ s.pner ≠ .waiting)
  ∧ (s.keySubmitted = true ↔ s.pnee ≠ .start)
  ∧ (s.activationSent = true ↔ s.pner = .finished)
  ∧ (s.pner = .finished → s.pnee ≠ .start)
  ∧ (s.registered = if s.pnee = .finished then 1 else 0)
  ∧ (s.pnee = .finished → s.activationSent = true)

/-- Helper: the invariant holds initially. -/
theorem provisionInv_init : ProvisionInv provisionInit := by
  simp [ProvisionInv, provisionInit]

/-- Helper: every step of the session preserves the invariant. -/
theorem provisionInv_step (sX sY : Nat) (s t : ProvisionState)
    (hinv : ProvisionInv s) (hst : ProvisionStep sX sY s t) : ProvisionInv t := by
  obtain ⟨h1, h2, h3, h4, h5, h6⟩ := hinv
  cases hst with
  | supplySecret hw =>
    exact ⟨by simp, h2, by simp [ProvisionState.activationSent, h3, hw], by simp,
           h5, h6⟩
  | submitKey hs =>
    exact ⟨h1, by simp, h3, by simp, by simp [h5, hs], by simp⟩
  | attest hh hk hsec =>
    exact ⟨by simp [ProvisionState.secretSupplied, h1, hh], h2, by simp,
           fun _ => h2.mp hk, h5, by simp⟩
  | install hs ha =>
    exact ⟨h1, by simp [ProvisionState.keySubmitted, h2, hs], h3, by simp,
           by simp [ProvisionState.registered, h5, hs], fun _ => ha⟩

/-- Helper: the invariant holds at every reachable state. -/
theorem provisionInv_reach (sX sY : Nat) (s : ProvisionState)
    (h : ProvisionReach sX sY s) : ProvisionInv s := by
  induction h with
  | init => exact provisionInv_init
  | step s t _ hst ih => exact provisionInv_step sX sY s t ih hst

/-- Ranking of the provisioner phase, decreasing along its transitions. -/
def pnerRank : ProvisionerPhase → Nat
  | .waiting => 2
  | .haveSecret => 1
  | .finished => 0

/-- Ranking of the provisionee phase, decreasing along its transitions. -/
def pneeRank : ProvisioneePhase → Nat
  | .start => 2
  | .sentKey => 1
  | .finished => 0

/-- Termination measure of a provisioning session. -/
def provisionMeasure (s : ProvisionState) : Nat :=
  pnerRank s.pner + pneeRank s.pnee

end Saltpack

namespace Saltpack

/-- Helper: with matching secrets, every invariant-satisfying non-final
session state has an enabled transition — no deadlock and no missed
rendezvous at any interleaving, in particular while the provisioner is
already running and still waiting for its secret. -/
theorem provision_progress (sX sY : Nat) (hsec : sX = sY) (s : ProvisionState)
    (hinv : ProvisionInv s) (hnf : ¬ ProvisionFinal s) :
    ∃ t, ProvisionStep sX sY s t := by
  obtain ⟨h1, h2, h3, h4, h5, h6⟩ := hinv
  cases hp : s.pner with
  | waiting => exact ⟨_, .supplySecret s hp⟩
  | haveSecret =>
    cases he : s.pnee with
    | start => exact ⟨_, .submitKey s he⟩
    | sentKey =>
      have hk : s.keySubmitted = true := h2.mpr (by rw [he]; simp)
      exact ⟨_, .attest s hp hk hsec⟩
    | finished =>
      have hfin := h3.mp (h6 he)
      rw [hp] at hfin
      exact absurd hfin (by simp)
  | finished =>
    cases he : s.pnee with
    | start => exact absurd he (h4 hp)
    | sentKey => exact ⟨_, .install s he (h3.mpr hp)⟩
    | finished => exact absurd ⟨hp, he⟩ hnf

/-- Helper: every transition strictly decreases the session measure, so
both concurrent tasks terminate. -/
theorem provision_measure_decreases (sX sY : Nat) (s t : ProvisionState)
    (hst : ProvisionStep sX sY s t) : provisionMeasure t < provisionMeasure s := by
  cases hst <;> simp [provisionMeasure, pnerRank, pneeRank, *]

/-- C7: in the provisioning protocol with matching secrets, the shared
secret can be supplied to a provisioner that is already running and
waiting, without deadlock or missed rendezvous (every reachable non-final
interleaving can make progress and every run terminates), every completed
session has activated the provisionee's new device key in the
DeviceRegistry exactly once with both concurrent tasks terminated
successfully, and a completed session is in fact reached — along a run in
which the secret reaches the waiting provisioner only after the
provisionee has already engaged the rendezvous. -/
theorem provisioning_rendezvous_correct (sX sY : Nat) (hsec : sX = sY) :
    (∀ s, ProvisionReach sX sY s → ¬ ProvisionFinal s → ∃ t, ProvisionStep sX sY s t)
    ∧ (∀ s t, ProvisionStep sX sY s t → provisionMeasure t < provisionMeasure s)
    ∧ (∀ s, ProvisionReach sX sY s → ProvisionFinal s → s.registered = 1)
    ∧ ProvisionReach sX sY
        ⟨.finished, .finished, true, true, true, 1⟩ := by
  refine ⟨?_, ?_, ?_, ?_⟩
  · intro s hr hnf
    exact provision_progress sX sY hsec s (provisionInv_reach sX sY s hr) hnf
  · intro s t hst
    exact provision_measure_decreases sX sY s t hst
  · intro s hr hf
    obtain ⟨_, _, _, _, h5, _⟩ := provisionInv_reach sX sY s hr
    rw [h5, if_pos hf.2]
  · have r1 : ProvisionReach sX sY ⟨.waiting, .sentKey, false, true, false, 0⟩ :=
      .step _ _ .init (.submitKey provisionInit rfl)
    have r2 : ProvisionReach sX sY ⟨.haveSecret, .sentKey, true, true, false, 0⟩ :=
      .step _ _ r1 (.supplySecret ⟨.waiting, .sentKey, false, true, false, 0⟩ rfl)
    have r3 : ProvisionReach sX sY ⟨.finished, .sentKey, true, true, true, 0⟩ :=
      .step _ _ r2 (.attest ⟨.haveSecret, .sentKey, true, true, false, 0⟩ rfl rfl hsec)
    exact .step _ _ r3 (.install ⟨.finished, .sentKey, true, true, true, 0⟩ rfl rfl)

/-- Witness for C7: a completed session with a concrete shared secret,
reached through the handoff-to-a-waiting-provisioner interleaving. -/
theorem provisioning_rendezvous_correct_witness :
    (0 : Nat) = 0
    ∧ ProvisionReach 0 0 ⟨.finished, .finished, true, true, true, 1⟩ :=
  ⟨rfl, (provisioning_rendezvous_correct 0 0 rfl).2.2.2⟩

end Saltpack
